import Mathlib

/-!
# The custom recognition callback of `my_reco_1.cpp`

A shallow embedding of `agent/cpp-algo/source/my_reco_1/my_reco_1.cpp`:

* `to_mat` builds a non-owning `cv::Mat` header over the pixel block of a
  `MaaImageBuffer`;
* `ChildCustomRecognitionCallback` builds that header, converts it from BGR to
  HSV, stores a rectangle and a JSON text into the two output slots that are
  not null, and returns `true`.

The callback has no `try`/`catch`: a C++ exception raised by a library call
leaves the callback.  It is therefore modelled as returning
`Except cv.Exception MaaBool`, next to the final contents of the two output
slots and the list of host writes it performed.

Library calls the source makes are modelled next to it:

* the `MaaFramework` accessors of an image buffer are the fields of a record;
* `cv::Mat(rows, cols, type, data)` and the type-code macros `CV_MAT_DEPTH`,
  `CV_MAT_CN`, `CV_ELEM_SIZE` follow the OpenCV 4 headers;
* `cv::cvtColor(src, dst, cv::COLOR_BGR2HSV)` is a parameter of the callback
  (its destination is a local that is never read, so all that matters is
  whether it raises); `cv.cvtColor_BGR2HSV` models the argument checks OpenCV 4
  performs for that conversion code;
* `json::value`, `operator[]`, assignment and `dumps()` follow meojson for the
  null / string / object fragment the callback uses.

The log line emitted at entry and the ignored `MaaContextGetTasker` query touch
neither the verdict nor the output slots and are left out.
-/

namespace MaaEnd

/-! ## Host data (MaaFramework) -/

/-- The host rectangle `MaaRect`: four 32-bit signed integers. -/
structure MaaRect where
  x : Int
  y : Int
  width : Int
  height : Int
deriving DecidableEq, Repr

/-- The host boolean `MaaBool`. -/
abbrev MaaBool := Bool

/-- The host image buffer behind a `const MaaImageBuffer*`: what its accessors
report (height, width, channel count, address of the pixel block) and the
bytes of the pixel block.  Height, width and channel count are those of the
matrix the host wraps, hence never negative. -/
structure MaaImageBuffer where
  height : Nat
  width : Nat
  channels : Nat
  rawData : Nat
  pixels : List Nat
deriving DecidableEq, Repr

/-- Host accessor `MaaImageBufferHeight`. -/
def MaaImageBufferHeight (buffer : MaaImageBuffer) : Nat := buffer.height

/-- Host accessor `MaaImageBufferWidth`. -/
def MaaImageBufferWidth (buffer : MaaImageBuffer) : Nat := buffer.width

/-- Host accessor `MaaImageBufferChannels`. -/
def MaaImageBufferChannels (buffer : MaaImageBuffer) : Nat := buffer.channels

/-- Host accessor `MaaImageBufferGetRawData`; address `0` is the null pointer. -/
def MaaImageBufferGetRawData (buffer : MaaImageBuffer) : Nat := buffer.rawData

/-! ## The matrix library (OpenCV 4)

The type code of a matrix packs the depth of a channel value in its three low
bits and the channel count, minus one, in the bits above (`interface.h`,
`cvdef.h`): `CV_8UC3` is 16 and `CV_8UC4` is 24, while the small codes 0 to 7
are the one-channel types `CV_8UC1`, `CV_8SC1`, `CV_16UC1`, `CV_16SC1`,
`CV_32SC1`, `CV_32FC1`, `CV_64FC1`, `CV_16FC1`. -/

namespace cv

/-- Depth code `CV_8U`. -/
def CV_8U : Nat := 0
/-- Depth code `CV_8S`. -/
def CV_8S : Nat := 1
/-- Depth code `CV_16U`. -/
def CV_16U : Nat := 2
/-- Depth code `CV_16S`. -/
def CV_16S : Nat := 3
/-- Depth code `CV_32S`. -/
def CV_32S : Nat := 4
/-- Depth code `CV_32F`. -/
def CV_32F : Nat := 5
/-- Depth code `CV_64F`. -/
def CV_64F : Nat := 6
/-- Depth code `CV_16F`. -/
def CV_16F : Nat := 7

/-- The shift `CV_CN_SHIFT` of the channel count inside a type code. -/
def CV_CN_SHIFT : Nat := 3

/-- The mask `Mat::TYPE_MASK = 0x00000FFF`. -/
def TYPE_MASK : Nat := 0xFFF

/-- The macro `CV_MAT_DEPTH(flags) = flags & 7`. -/
def CV_MAT_DEPTH (flags : Nat) : Nat := flags &&& 7

/-- The macro `CV_MAT_CN(flags) = ((flags & (511 << 3)) >> 3) + 1`. -/
def CV_MAT_CN (flags : Nat) : Nat := ((flags &&& (511 <<< CV_CN_SHIFT)) >>> CV_CN_SHIFT) + 1

/-- The macro `CV_MAKETYPE(depth, cn) = CV_MAT_DEPTH(depth) + ((cn - 1) << 3)`. -/
def CV_MAKETYPE (depth cn : Nat) : Nat := CV_MAT_DEPTH depth + ((cn - 1) <<< CV_CN_SHIFT)

/-- The type code `CV_8UC3` of an 8-bit three-channel matrix. -/
def CV_8UC3 : Nat := CV_MAKETYPE CV_8U 3

/-- The type code `CV_8UC4` of an 8-bit four-channel matrix. -/
def CV_8UC4 : Nat := CV_MAKETYPE CV_8U 4

/-- Bytes of one channel value of the given depth (`CV_ELEM_SIZE1`). -/
def CV_ELEM_SIZE1 (type : Nat) : Nat :=
  match CV_MAT_DEPTH type with
  | 0 => 1
  | 1 => 1
  | 2 => 2
  | 3 => 2
  | 4 => 4
  | 5 => 4
  | 6 => 8
  | _ => 2

/-- Bytes of one matrix element (`CV_ELEM_SIZE`): channels times bytes per
channel value. -/
def CV_ELEM_SIZE (type : Nat) : Nat := CV_MAT_CN type * CV_ELEM_SIZE1 type

/-- The failures the modelled OpenCV calls raise (`cv::Exception`), named by the
check that failed. -/
inductive Exception where
  /-- The assertion `total() == 0 || data != NULL` of the `Mat` constructor. -/
  | nullData
  /-- The assertion `!_src.empty()` of `cvtColor`. -/
  | emptySource
  /-- The check "Invalid number of channels in input image", with the channel count. -/
  | invalidChannels (scn : Nat)
  /-- The check "Unsupported depth of input image", with the depth code. -/
  | unsupportedDepth (depth : Nat)
deriving DecidableEq, Repr

/-- The header of a two-dimensional `cv::Mat` over user data: the type code kept
in `flags`, the size, the address of the first byte and the bytes per row. -/
structure Mat where
  type : Nat
  rows : Nat
  cols : Nat
  data : Nat
  step : Nat
deriving DecidableEq, Repr

/-- The method `Mat::channels()`. -/
def Mat.channels (m : Mat) : Nat := CV_MAT_CN m.type

/-- The method `Mat::depth()`. -/
def Mat.depth (m : Mat) : Nat := CV_MAT_DEPTH m.type

/-- The method `Mat::elemSize()`. -/
def Mat.elemSize (m : Mat) : Nat := CV_ELEM_SIZE m.type

/-- The method `Mat::total()`: the number of elements. -/
def Mat.total (m : Mat) : Nat := m.rows * m.cols

/-- The method `Mat::empty()`: no data or no element. -/
def Mat.empty (m : Mat) : Bool := m.data == 0 || m.total == 0

/-- The constructor `cv::Mat(int rows, int cols, int type, void* data)` with the
default `AUTO_STEP`: it keeps `type & TYPE_MASK` in the flags, asserts
`total() == 0 || data != NULL`, and takes `cols * CV_ELEM_SIZE(type)` bytes per
row.  Nothing is copied. -/
def Mat.ofData (rows cols type data : Nat) : Except Exception Mat :=
  let t := type &&& TYPE_MASK
  if rows * cols ≠ 0 ∧ data = 0 then
    .error .nullData
  else
    .ok { type := t, rows := rows, cols := cols, data := data, step := cols * CV_ELEM_SIZE t }

/-- The call `cv::cvtColor(src, dst, cv::COLOR_BGR2HSV)` as far as it can be
observed when `dst` is never read: the checks made before any pixel is
converted.  `cvtColor` asserts `!_src.empty()`; the helper of the HSV
conversion, `CvtHelper<Set<3, 4>, Set<3>, Set<CV_8U, CV_32F>>`, then checks the
channel count of the source (3 or 4) and its depth (`CV_8U` or `CV_32F`), in
this order. -/
def cvtColor_BGR2HSV (src : Mat) : Except Exception Unit :=
  if src.empty then
    .error .emptySource
  else
    let scn := CV_MAT_CN src.type
    let depth := CV_MAT_DEPTH src.type
    if ¬ (scn = 3 ∨ scn = 4) then
      .error (.invalidChannels scn)
    else if ¬ (depth = CV_8U ∨ depth = CV_32F) then
      .error (.unsupportedDepth depth)
    else
      .ok ()

end cv

/-! ## The JSON encoder (meojson) -/

namespace json

/-- The double quote character. -/
def dquote : Char := Char.ofNat 34

/-- The backslash character. -/
def backslash : Char := Char.ofNat 92

/-- The opening brace of an object. -/
def lbrace : Char := Char.ofNat 123

/-- The closing brace of an object. -/
def rbrace : Char := Char.ofNat 125

/-- The fragment of `json::value` the callback builds: the default-constructed
null, a string, and an object with its members in key order (a `std::map`). -/
inductive value where
  | null
  | string (s : String)
  | object (members : List (String × value))
deriving Repr

/-- Key assignment on the members of an object, `obj[key] = v`: the member is
replaced when the key is present and inserted in key order when not. -/
def assignMember (key : String) (v : value) : List (String × value) → List (String × value)
  | [] => [(key, v)]
  | (k, w) :: rest =>
    if key = k then (k, v) :: rest
    else if key.data < k.data then (key, v) :: (k, w) :: rest
    else (k, w) :: assignMember key v rest

/-- The statement `j[key] = v`: `operator[]` turns a null value into an empty
object first, then the member is assigned.  On a string value meojson raises;
the callback only applies it to a fresh null value. -/
def value.assign (j : value) (key : String) (v : value) : Option value :=
  match j with
  | .null => some (.object (assignMember key v []))
  | .object members => some (.object (assignMember key v members))
  | .string _ => none

/-- The escaping `dumps()` applies to the characters of a string. -/
def escapeChar (c : Char) : List Char :=
  if c = dquote then [backslash, dquote]
  else if c = backslash then [backslash, backslash]
  else if c = Char.ofNat 8 then [backslash, 'b']
  else if c = Char.ofNat 12 then [backslash, 'f']
  else if c = Char.ofNat 10 then [backslash, 'n']
  else if c = Char.ofNat 13 then [backslash, 'r']
  else if c = Char.ofNat 9 then [backslash, 't']
  else [c]

/-- A string between double quotes, escaped. -/
def quoted (s : String) : List Char :=
  dquote :: (s.data.flatMap escapeChar ++ [dquote])

mutual
/-- The compact text of a value, as a list of characters. -/
def value.chars : value → List Char
  | .null => "null".data
  | .string s => quoted s
  | .object members => lbrace :: (membersChars members ++ [rbrace])
/-- The compact text of the members of an object, separated by commas. -/
def membersChars : List (String × value) → List Char
  | [] => []
  | [(k, v)] => quoted k ++ ':' :: v.chars
  | (k, v) :: rest => quoted k ++ ':' :: v.chars ++ ',' :: membersChars rest
end

/-- The method `dumps()`: the compact textual form. -/
def value.dumps (j : value) : String := String.mk j.chars

/-- The conversion `c_str()` handed to a C interface: the text up to the first
NUL character. -/
def c_str (s : String) : String := String.mk (s.data.takeWhile (fun c => c ≠ Char.ofNat 0))

/-! ### Reading JSON text back

A reader for the JSON texts that are one object whose members are strings,
written without white space.  Every text it accepts is valid JSON. -/

/-- The character an escape sequence stands for, for the two-character escapes
of JSON. -/
def unescapeChar (c : Char) : Option Char :=
  if c = dquote then some dquote
  else if c = backslash then some backslash
  else if c = '/' then some '/'
  else if c = 'b' then some (Char.ofNat 8)
  else if c = 'f' then some (Char.ofNat 12)
  else if c = 'n' then some (Char.ofNat 10)
  else if c = 'r' then some (Char.ofNat 13)
  else if c = 't' then some (Char.ofNat 9)
  else none

/-- Reads the rest of a JSON string after its opening quote: the characters up
to the closing quote, unescaped, and the text after it.  Control characters
must be escaped. -/
def readStringBody : List Char → List Char → Option (String × List Char)
  | [], _ => none
  | c :: rest, acc =>
    if c = dquote then some (String.mk acc.reverse, rest)
    else if c = backslash then
      match rest with
      | [] => none
      | e :: rest2 =>
        match unescapeChar e with
        | none => none
        | some d => readStringBody rest2 (d :: acc)
    else if c.toNat < 32 then none
    else readStringBody rest (c :: acc)

/-- Reads a JSON string. -/
def readString : List Char → Option (String × List Char)
  | [] => none
  | c :: rest => if c = dquote then readStringBody rest [] else none

/-- Reads the members of an object after the first one has been announced: a
member is a string key, a colon and a string value; members are separated by
commas and closed by a brace.  The fuel bounds the number of members. -/
def readMembers : Nat → List Char → Option (List (String × String) × List Char)
  | 0, _ => none
  | fuel + 1, cs =>
    match readString cs with
    | none => none
    | some (k, cs1) =>
      match cs1 with
      | [] => none
      | colon :: cs2 =>
        if colon ≠ ':' then none
        else
          match readString cs2 with
          | none => none
          | some (v, cs3) =>
            match cs3 with
            | [] => none
            | sep :: cs4 =>
              if sep = rbrace then some ([(k, v)], cs4)
              else if sep = ',' then
                match readMembers fuel cs4 with
                | none => none
                | some (ms, cs5) => some ((k, v) :: ms, cs5)
              else none

/-- Reads a whole text as one JSON object with string members. -/
def parseObject (s : String) : Option (List (String × String)) :=
  match s.data with
  | [] => none
  | c :: rest =>
    if c ≠ lbrace then none
    else
      match rest with
      | [] => none
      | d :: rest2 =>
        if d = rbrace then (if rest2 = [] then some [] else none)
        else
          match readMembers s.length rest with
          | some (ms, []) => some ms
          | _ => none

end json

/-! ## The callback -/

/-- The state of the two output slots the host passes: `none` is a null
pointer, `some v` a slot that currently holds `v`. -/
structure Outputs where
  out_box : Option MaaRect
  out_detail : Option String
deriving DecidableEq, Repr

/-- A write the callback performs on host memory. -/
inductive HostWrite where
  /-- The store `*out_box = r`. -/
  | box (r : MaaRect)
  /-- The call `MaaStringBufferSet(out_detail, s)`. -/
  | detail (s : String)
deriving DecidableEq, Repr

/-- The borrowed inputs of one invocation.  Pointers are addresses. -/
structure Invocation where
  context : Nat
  task_id : Int
  node_name : String
  custom_recognition_name : String
  custom_recognition_param : String
  image : MaaImageBuffer
  roi : MaaRect
  trans_arg : Nat
deriving DecidableEq, Repr

/-- What the host observes of one invocation: the verdict, or the exception
that left the callback; the output slots afterwards; the writes performed, in
order. -/
structure Outcome where
  result : Except cv.Exception MaaBool
  outputs : Outputs
  writes : List HostWrite

/-- The helper `to_mat`: a `cv::Mat` built from the height, the width, the
channel count and the raw-data pointer of the buffer, in this order. -/
def to_mat (buffer : MaaImageBuffer) : Except cv.Exception cv.Mat :=
  cv.Mat.ofData
    (MaaImageBufferHeight buffer)
    (MaaImageBufferWidth buffer)
    (MaaImageBufferChannels buffer)
    (MaaImageBufferGetRawData buffer)

/-- The host call `MaaStringBufferSet(handle, str)` on a non-null handle: the
buffer holds the text afterwards. -/
def MaaStringBufferSet (out : Outputs) (str : String) : Outputs :=
  { out with out_detail := some str }

/-- The rectangle the callback stores. -/
def resultBox : MaaRect := { x := 100, y := 100, width := 10, height := 10 }

/-- The value `j` after `json::value j; j["key"] = "value";`. -/
def resultJson : json.value :=
  (json.value.null.assign "key" (.string "value")).getD .null

/-- The output part of the callback (lines 48 to 60 of the source): store the
box if `out_box` is not null, then set the detail if `out_detail` is not null,
then return `true`. -/
def writeOutputs (out : Outputs) : Outcome :=
  let afterBox : Outputs × List HostWrite :=
    if out.out_box.isSome then
      ({ out with out_box := some resultBox }, [HostWrite.box resultBox])
    else
      (out, [])
  let afterDetail : Outputs × List HostWrite :=
    if afterBox.1.out_detail.isSome then
      let text := json.c_str resultJson.dumps
      (MaaStringBufferSet afterBox.1 text, afterBox.2 ++ [HostWrite.detail text])
    else
      afterBox
  { result := .ok true, outputs := afterDetail.1, writes := afterDetail.2 }

/-- The callback `ChildCustomRecognitionCallback`.  The conversion
`cv::cvtColor(img, hsv, cv::COLOR_BGR2HSV)` is the parameter `cvtColor`; an
exception from `to_mat` or from the conversion leaves the callback before any
output is touched. -/
def ChildCustomRecognitionCallback
    (cvtColor : cv.Mat → Except cv.Exception Unit)
    (inv : Invocation) (out : Outputs) : Outcome :=
  match to_mat inv.image with
  | .error e => { result := .error e, outputs := out, writes := [] }
  | .ok img =>
    match cvtColor img with
    | .error e => { result := .error e, outputs := out, writes := [] }
    | .ok _ => writeOutputs out

/-! ## Concrete invocations -/

/-- A 640 by 480 BGR screenshot: three channels, pixel block at a non-null
address. -/
def imageBGR : MaaImageBuffer :=
  { height := 480, width := 640, channels := 3, rawData := 0x10000,
    pixels := List.replicate (480 * 640 * 3) 0 }

/-- A 640 by 480 BGRA screenshot: four channels. -/
def imageBGRA : MaaImageBuffer :=
  { height := 480, width := 640, channels := 4, rawData := 0x10000,
    pixels := List.replicate (480 * 640 * 4) 0 }

/-- The image with no row and no column. -/
def imageEmpty : MaaImageBuffer :=
  { height := 0, width := 0, channels := 3, rawData := 0, pixels := [] }

/-- Scenario S1 of the specification: the BGR screenshot with the region of
interest covering it. -/
def scenarioS1 : Invocation :=
  { context := 0x1000, task_id := 1, node_name := "Node",
    custom_recognition_name := "my_reco_1", custom_recognition_param := "\x7b\x7d",
    image := imageBGR, roi := { x := 0, y := 0, width := 640, height := 480 },
    trans_arg := 0 }

/-- Scenario S5 of the specification: the BGRA screenshot with the region of
interest covering it. -/
def scenarioS5 : Invocation := { scenarioS1 with image := imageBGRA }

/-- Scenario S4 of the specification: the empty image. -/
def scenarioS4 : Invocation :=
  { scenarioS1 with image := imageEmpty, roi := { x := 0, y := 0, width := 0, height := 0 } }

/-- The BGR screenshot with a region of interest of zero area. -/
def scenarioZeroRoi : Invocation :=
  { scenarioS1 with roi := { x := 10, y := 10, width := 0, height := 0 } }

/-- Both output slots present, holding a zero rectangle and the empty text. -/
def bothSlots : Outputs :=
  { out_box := some { x := 0, y := 0, width := 0, height := 0 }, out_detail := some "" }

/-- Only the detail slot present (`out_box` is null). -/
def detailOnly : Outputs := { out_box := none, out_detail := some "" }

/-- The text the reference payload is expected to be. -/
def referenceDetail : String := "\x7b\"key\":\"value\"\x7d"

/-! ## Shared lemmas -/

/-- The text written into the detail slot is the reference payload. -/
theorem detail_text : json.c_str resultJson.dumps = referenceDetail := by
  decide

/-- The output part returns `true`. -/
theorem writeOutputs_result (out : Outputs) : (writeOutputs out).result = .ok true := rfl

/-- The slots after the output part: each non-null slot holds the constant. -/
theorem writeOutputs_outputs (out : Outputs) :
    (writeOutputs out).outputs =
      { out_box := out.out_box.map (fun _ => resultBox),
        out_detail := out.out_detail.map (fun _ => referenceDetail) } := by
  obtain ⟨b, d⟩ := out
  cases b <;> cases d <;> simp [writeOutputs, MaaStringBufferSet, detail_text]

/-- The writes of the output part: the box store if `out_box` is not null, then
the detail set if `out_detail` is not null. -/
theorem writeOutputs_writes (out : Outputs) :
    (writeOutputs out).writes =
      (if out.out_box.isSome then [HostWrite.box resultBox] else []) ++
      (if out.out_detail.isSome then [HostWrite.detail referenceDetail] else []) := by
  obtain ⟨b, d⟩ := out
  cases b <;> cases d <;> simp [writeOutputs, MaaStringBufferSet, detail_text]

/-- The callback either lets an exception through, having touched nothing, or
runs the output part. -/
theorem callback_cases (cvtColor : cv.Mat → Except cv.Exception Unit)
    (inv : Invocation) (out : Outputs) :
    (∃ e, ChildCustomRecognitionCallback cvtColor inv out =
        { result := .error e, outputs := out, writes := [] }) ∨
    ChildCustomRecognitionCallback cvtColor inv out = writeOutputs out := by
  unfold ChildCustomRecognitionCallback
  split
  · exact Or.inl ⟨_, rfl⟩
  · split
    · exact Or.inl ⟨_, rfl⟩
    · exact Or.inr rfl

/-- When `to_mat` or the conversion raises, the exception is the result of the
callback and nothing has been written. -/
theorem callback_of_failure (cvtColor : cv.Mat → Except cv.Exception Unit)
    (inv : Invocation) (out : Outputs) (e : cv.Exception)
    (h : to_mat inv.image = .error e ∨
      ∃ img, to_mat inv.image = .ok img ∧ cvtColor img = .error e) :
    ChildCustomRecognitionCallback cvtColor inv out =
      { result := .error e, outputs := out, writes := [] } := by
  unfold ChildCustomRecognitionCallback
  rcases h with h | ⟨img, h1, h2⟩
  · simp [h]
  · simp [h1, h2]

/-- When `to_mat` and the conversion both succeed, the callback is its output
part. -/
theorem callback_of_success (cvtColor : cv.Mat → Except cv.Exception Unit)
    (inv : Invocation) (out : Outputs) (img : cv.Mat)
    (h1 : to_mat inv.image = .ok img) (h2 : cvtColor img = .ok ()) :
    ChildCustomRecognitionCallback cvtColor inv out = writeOutputs out := by
  unfold ChildCustomRecognitionCallback
  simp [h1, h2]

/-- The matrix `to_mat` returns carries the channel count of the buffer as its
OpenCV type code. -/
theorem to_mat_type (buffer : MaaImageBuffer) (m : cv.Mat) (h : to_mat buffer = .ok m) :
    m.type = buffer.channels &&& cv.TYPE_MASK ∧ m.rows = buffer.height ∧
      m.cols = buffer.width ∧ m.data = buffer.rawData := by
  unfold to_mat cv.Mat.ofData at h
  simp only [MaaImageBufferHeight, MaaImageBufferWidth, MaaImageBufferChannels,
    MaaImageBufferGetRawData] at h
  split at h
  · cases h
  · cases h
    exact ⟨rfl, rfl, rfl, rfl⟩

/-- The OpenCV conversion rejects a matrix of type code 3 or 4: these are the
one-channel types `CV_16SC1` and `CV_32SC1`. -/
theorem cvtColor_rejects_type_3_4 (img : cv.Mat) (h : img.type = 3 ∨ img.type = 4) :
    ∃ e, cv.cvtColor_BGR2HSV img = .error e := by
  unfold cv.cvtColor_BGR2HSV
  by_cases he : img.empty = true
  · exact ⟨.emptySource, by simp [he]⟩
  · have hcn : cv.CV_MAT_CN img.type = 1 := by
      rcases h with h | h <;> rw [h] <;> decide
    exact ⟨.invalidChannels 1, by simp [he, hcn]⟩

/-- With the OpenCV conversion, every invocation on a buffer that reports 3 or 4
channels ends in an exception with nothing written. -/
theorem callback_raises_on_three_or_four_channels (inv : Invocation) (out : Outputs)
    (h : inv.image.channels = 3 ∨ inv.image.channels = 4) :
    ∃ e, ChildCustomRecognitionCallback cv.cvtColor_BGR2HSV inv out =
      { result := .error e, outputs := out, writes := [] } := by
  cases hm : to_mat inv.image with
  | error e => exact ⟨e, callback_of_failure _ inv out e (Or.inl hm)⟩
  | ok img =>
    have ht := (to_mat_type inv.image img hm).1
    have h34 : img.type = 3 ∨ img.type = 4 := by
      rcases h with h | h
      · left; rw [ht, h]; decide
      · right; rw [ht, h]; decide
    obtain ⟨e, he⟩ := cvtColor_rejects_type_3_4 img h34
    exact ⟨e, callback_of_failure _ inv out e (Or.inr ⟨img, hm, he⟩)⟩

/-! ## The claims -/

/-- Claim C1, evaluated on scenario S1 (640 by 480 BGR image, both output slots
present): with the OpenCV conversion the callback does not return `true`.
`to_mat` hands the channel count 3 to `cv::Mat` as type code, which is
`CV_16SC1`; the conversion rejects the one-channel matrix, the exception leaves
the callback and neither slot is written. -/
theorem C1_scenario_S1_raises :
    ChildCustomRecognitionCallback cv.cvtColor_BGR2HSV scenarioS1 bothSlots =
      { result := .error (.invalidChannels 1), outputs := bothSlots, writes := [] } ∧
    (ChildCustomRecognitionCallback cv.cvtColor_BGR2HSV scenarioS1 bothSlots).result ≠ .ok true ∧
    (ChildCustomRecognitionCallback cv.cvtColor_BGR2HSV scenarioS1 bothSlots).outputs.out_box
      ≠ some resultBox ∧
    (ChildCustomRecognitionCallback cv.cvtColor_BGR2HSV scenarioS1 bothSlots).outputs.out_detail
      ≠ some referenceDetail := by
  refine ⟨rfl, ?_, ?_, ?_⟩
  · intro h; cases h
  · decide
  · decide

/-- Claim C2, evaluated on scenario S2 (the BGR image, `out_box` null,
`out_detail` present): with the OpenCV conversion the callback does not return
`true` and the detail slot does not receive the payload; it keeps its old
content and no write happens. -/
theorem C2_scenario_S2_raises :
    ChildCustomRecognitionCallback cv.cvtColor_BGR2HSV scenarioS1 detailOnly =
      { result := .error (.invalidChannels 1), outputs := detailOnly, writes := [] } ∧
    (ChildCustomRecognitionCallback cv.cvtColor_BGR2HSV scenarioS1 detailOnly).outputs.out_detail
      = some "" := by
  exact ⟨rfl, rfl⟩

/-- Claim C4, evaluated on the 640 by 480 buffer with 3 channels: the matrix
`to_mat` returns has the rows, columns and data pointer of the buffer, but one
channel of depth `CV_16S` and rows of 1280 bytes, where the claim says three
channels of depth `CV_8U` and rows of 1920 bytes. -/
theorem C4_to_mat_bgr_is_one_channel_16s :
    ∃ m, to_mat imageBGR = .ok m ∧
      m.rows = imageBGR.height ∧ m.cols = imageBGR.width ∧ m.data = imageBGR.rawData ∧
      m.channels = 1 ∧ m.depth = cv.CV_16S ∧ m.elemSize = 2 ∧ m.step = 1280 ∧
      m.channels ≠ imageBGR.channels ∧ m.depth ≠ cv.CV_8U ∧
      m.step ≠ imageBGR.width * imageBGR.channels ∧ m.type ≠ cv.CV_8UC3 :=
  ⟨{ type := 3, rows := 480, cols := 640, data := 0x10000, step := 1280 },
    rfl, rfl, rfl, rfl, by decide, by decide, by decide, rfl, by decide, by decide,
    by decide, by decide⟩

/-- Counterexample to C5: on the empty image of scenario S4 with both slots
present, the callback does not return `false` and writes no failure message. -/
theorem C5_counterexample :
    ¬ ((ChildCustomRecognitionCallback cv.cvtColor_BGR2HSV scenarioS4 bothSlots).result
        = .ok false ∧
      (∃ s, HostWrite.detail s ∈
        (ChildCustomRecognitionCallback cv.cvtColor_BGR2HSV scenarioS4 bothSlots).writes) ∧
      (∀ r, HostWrite.box r ∉
        (ChildCustomRecognitionCallback cv.cvtColor_BGR2HSV scenarioS4 bothSlots).writes)) := by
  intro h
  have h1 : (ChildCustomRecognitionCallback cv.cvtColor_BGR2HSV scenarioS4 bothSlots).result
      = .error .emptySource := rfl
  rw [h1] at h
  cases h.1

/-- Claim C5 as amended: on an image of height 0 or width 0 the callback returns
no verdict.  The OpenCV conversion rejects the empty matrix, the exception
leaves the callback, and neither `out_box` nor `out_detail` is written. -/
theorem C5_empty_image_raises (inv : Invocation) (out : Outputs)
    (h : inv.image.height = 0 ∨ inv.image.width = 0) :
    ChildCustomRecognitionCallback cv.cvtColor_BGR2HSV inv out =
      { result := .error .emptySource, outputs := out, writes := [] } := by
  have hz : inv.image.height * inv.image.width = 0 := by
    rcases h with h | h <;> simp [h]
  cases hm : to_mat inv.image with
  | error e =>
    exfalso
    simp [to_mat, cv.Mat.ofData, MaaImageBufferHeight, MaaImageBufferWidth,
      MaaImageBufferChannels, MaaImageBufferGetRawData] at hm
    split at hm
    · rename_i hc
      rcases h with h | h
      · exact hc.1.1 h
      · exact hc.1.2 h
    · cases hm
  | ok img =>
    obtain ⟨_, hr, hc, _⟩ := to_mat_type inv.image img hm
    have he : img.empty = true := by
      simp [cv.Mat.empty, cv.Mat.total, hr, hc, hz]
    exact callback_of_failure _ inv out _
      (Or.inr ⟨img, hm, by simp [cv.cvtColor_BGR2HSV, he]⟩)

/-- Witness of C5 as amended: scenario S4 with both slots present. -/
theorem C5_empty_image_raises_witness :
    (scenarioS4.image.height = 0 ∨ scenarioS4.image.width = 0) ∧
    ChildCustomRecognitionCallback cv.cvtColor_BGR2HSV scenarioS4 bothSlots =
      { result := .error .emptySource, outputs := bothSlots, writes := [] } :=
  ⟨Or.inl rfl, C5_empty_image_raises scenarioS4 bothSlots (Or.inl rfl)⟩

/-- Counterexample to C6: on the BGR screenshot with a region of interest of
zero area the callback does not return `false`. -/
theorem C6_counterexample :
    (scenarioZeroRoi.roi.width = 0 ∨ scenarioZeroRoi.roi.height = 0) ∧
    (ChildCustomRecognitionCallback cv.cvtColor_BGR2HSV scenarioZeroRoi bothSlots).result
      ≠ .ok false := by
  refine ⟨Or.inl rfl, ?_⟩
  have h1 : (ChildCustomRecognitionCallback cv.cvtColor_BGR2HSV scenarioZeroRoi bothSlots).result
      = .error (.invalidChannels 1) := rfl
  rw [h1]
  intro h
  cases h

/-- Claim C6 as amended: the callback does not look at the region of interest.
Replacing it by any rectangle, of zero area or not, changes nothing of the
outcome, and the verdict `false` is never returned. -/
theorem C6_roi_ignored_never_false (cvtColor : cv.Mat → Except cv.Exception Unit)
    (inv : Invocation) (out : Outputs) (roi : MaaRect) :
    ChildCustomRecognitionCallback cvtColor { inv with roi := roi } out =
      ChildCustomRecognitionCallback cvtColor inv out ∧
    (ChildCustomRecognitionCallback cvtColor { inv with roi := roi } out).result
      ≠ .ok false := by
  refine ⟨rfl, ?_⟩
  rcases callback_cases cvtColor { inv with roi := roi } out with ⟨e, h⟩ | h <;> rw [h]
  · intro h2; cases h2
  · rw [writeOutputs_result]; intro h2; cases h2

/-- Counterexample to C7: on a 1080p BGR image the conversion raises on the
matrix built by `to_mat`, and the result of the callback is that error, not the
verdict `false`. -/
theorem C7_counterexample :
    (∃ img, to_mat { imageBGR with height := 1080, width := 1920 } = .ok img ∧
      cv.cvtColor_BGR2HSV img = .error (.invalidChannels 1)) ∧
    (ChildCustomRecognitionCallback cv.cvtColor_BGR2HSV
      { scenarioS1 with image := { imageBGR with height := 1080, width := 1920 } }
      bothSlots).result = .error (.invalidChannels 1) ∧
    (ChildCustomRecognitionCallback cv.cvtColor_BGR2HSV
      { scenarioS1 with image := { imageBGR with height := 1080, width := 1920 } }
      bothSlots).result ≠ .ok false := by
  refine ⟨⟨_, rfl, rfl⟩, rfl, ?_⟩
  intro h
  cases h

/-- Claim C7 as amended: the callback catches nothing.  When `to_mat` or the
conversion raises, that exception is the result of the callback: it reaches the
host, and no verdict is returned. -/
theorem C7_failure_propagates (cvtColor : cv.Mat → Except cv.Exception Unit)
    (inv : Invocation) (out : Outputs) (e : cv.Exception)
    (h : to_mat inv.image = .error e ∨
      ∃ img, to_mat inv.image = .ok img ∧ cvtColor img = .error e) :
    (ChildCustomRecognitionCallback cvtColor inv out).result = .error e ∧
    ∀ verdict, (ChildCustomRecognitionCallback cvtColor inv out).result ≠ .ok verdict := by
  rw [callback_of_failure cvtColor inv out e h]
  refine ⟨rfl, ?_⟩
  intro v hv
  cases hv

/-- Witness of C7 as amended: on scenario S5 the OpenCV conversion raises on
the matrix built by `to_mat`. -/
theorem C7_failure_propagates_witness :
    (∃ img, to_mat scenarioS5.image = .ok img ∧
      cv.cvtColor_BGR2HSV img = .error (.invalidChannels 1)) ∧
    (ChildCustomRecognitionCallback cv.cvtColor_BGR2HSV scenarioS5 bothSlots).result
      = .error (.invalidChannels 1) :=
  ⟨⟨_, rfl, rfl⟩, (C7_failure_propagates cv.cvtColor_BGR2HSV scenarioS5 bothSlots
    (.invalidChannels 1) (Or.inr ⟨_, rfl, rfl⟩)).1⟩

/-- Claim C8, evaluated on scenario S5 (640 by 480 BGRA image, both slots
present): the matrix is built with the channel count 4 as type code, which is
the one-channel type `CV_32SC1` and not `CV_8UC4`; the OpenCV conversion rejects
it, the callback does not return `true` and `out_box` keeps its old content. -/
theorem C8_scenario_S5_raises :
    (∃ m, to_mat imageBGRA = .ok m ∧ m.type = 4 ∧ m.channels = 1 ∧ m.depth = cv.CV_32S ∧
      m.type ≠ cv.CV_8UC4) ∧
    ChildCustomRecognitionCallback cv.cvtColor_BGR2HSV scenarioS5 bothSlots =
      { result := .error (.invalidChannels 1), outputs := bothSlots, writes := [] } ∧
    (ChildCustomRecognitionCallback cv.cvtColor_BGR2HSV scenarioS5 bothSlots).outputs.out_box
      ≠ some resultBox :=
  ⟨⟨{ type := 4, rows := 480, cols := 640, data := 0x10000, step := 2560 },
      rfl, rfl, by decide, by decide, by decide⟩,
    rfl, by decide⟩

/-- Claim C9: whenever the callback writes `out_detail`, the text written is not
empty, reads back as a JSON object with the single member "key" mapped to the
string "value", is the compact serialization of that object, and is what the
detail slot holds afterwards. -/
theorem C9_detail_is_the_json_payload
    (cvtColor : cv.Mat → Except cv.Exception Unit) (inv : Invocation) (out : Outputs)
    (s : String)
    (h : HostWrite.detail s ∈ (ChildCustomRecognitionCallback cvtColor inv out).writes) :
    s ≠ "" ∧ s = referenceDetail ∧
    json.parseObject s = some [("key", "value")] ∧
    s = (json.value.object [("key", .string "value")]).dumps ∧
    (ChildCustomRecognitionCallback cvtColor inv out).outputs.out_detail = some s := by
  rcases callback_cases cvtColor inv out with ⟨e, hc⟩ | hc <;> rw [hc] at h ⊢
  · simp at h
  · rw [writeOutputs_writes] at h
    have hs : s = referenceDetail ∧ out.out_detail.isSome = true := by
      cases hb : out.out_box.isSome <;> cases hd : out.out_detail.isSome <;>
        simp [hb, hd] at h <;> simp [h]
    obtain ⟨hs, hd⟩ := hs
    subst hs
    refine ⟨by decide, rfl, by decide, by decide, ?_⟩
    rw [writeOutputs_outputs]
    obtain ⟨d, hd2⟩ := Option.isSome_iff_exists.mp hd
    simp [hd2]

/-- Witness of C9: scenario S1 with both slots present, under a conversion that
accepts the matrix. -/
theorem C9_detail_is_the_json_payload_witness :
    (HostWrite.detail referenceDetail ∈
      (ChildCustomRecognitionCallback (fun _ => .ok ()) scenarioS1 bothSlots).writes) ∧
    json.parseObject referenceDetail = some [("key", "value")] :=
  ⟨by decide, (C9_detail_is_the_json_payload (fun _ => .ok ()) scenarioS1 bothSlots
    referenceDetail (by decide)).2.2.1⟩

/-- Claim C10: the output writes come after the conversion.  When `to_mat` or
the conversion raises, the output slots are as before the call and no write
has happened; and in every invocation the writes are a part of the sequence
"box store, then detail set", in this order. -/
theorem C10_no_write_before_conversion
    (cvtColor : cv.Mat → Except cv.Exception Unit) (inv : Invocation) (out : Outputs) :
    (∀ e, (to_mat inv.image = .error e ∨
        ∃ img, to_mat inv.image = .ok img ∧ cvtColor img = .error e) →
      (ChildCustomRecognitionCallback cvtColor inv out).outputs = out ∧
      (ChildCustomRecognitionCallback cvtColor inv out).writes = []) ∧
    List.Sublist (ChildCustomRecognitionCallback cvtColor inv out).writes
      [HostWrite.box resultBox, HostWrite.detail referenceDetail] := by
  constructor
  · intro e h
    rw [callback_of_failure cvtColor inv out e h]
    exact ⟨rfl, rfl⟩
  · rcases callback_cases cvtColor inv out with ⟨e, hc⟩ | hc <;> rw [hc]
    · simp
    · rw [writeOutputs_writes]
      cases out.out_box.isSome <;> cases out.out_detail.isSome <;> simp

/-- Witness of C10: on scenario S1 the OpenCV conversion raises and both slots
keep their content. -/
theorem C10_no_write_before_conversion_witness :
    (∃ img, to_mat scenarioS1.image = .ok img ∧
      cv.cvtColor_BGR2HSV img = .error (.invalidChannels 1)) ∧
    (ChildCustomRecognitionCallback cv.cvtColor_BGR2HSV scenarioS1 bothSlots).outputs
      = bothSlots ∧
    (ChildCustomRecognitionCallback cv.cvtColor_BGR2HSV scenarioS1 bothSlots).writes = [] :=
  ⟨⟨_, rfl, rfl⟩, (C10_no_write_before_conversion cv.cvtColor_BGR2HSV scenarioS1 bothSlots).1
    (.invalidChannels 1) (Or.inr ⟨_, rfl, rfl⟩)⟩

end MaaEnd
